import Mathlib

/-!
Verification of the two provisioning scripts of the `finance` repository
(`setup_supabase.py` and `create_polarity.py`).

The scripts are embedded shallowly: every interactive prompt and every
HTTP response becomes an explicit input, and each observable side effect
(HTTP request, file write, sleep, process exit, uncaught exception)
becomes an element of an event trace produced by the embedded program.
JSON documents handled by the settings merge are modelled by an inductive
`Json` type.  The settings-file segment is modelled twice: once at the
document level (the parsed value, adequate for the merge and
event-ordering claims), and once at the byte level, with an executable
model of `json.load` and of `json.dump(..., indent=2)`, for the claims
about the exact contents of the files the scripts read and write.
-/

namespace Finance

/-- JSON values, as handled by Python's `json` module. -/
inductive Json where
  | null : Json
  | bool (b : Bool) : Json
  | num (n : Int) : Json
  | str (s : String) : Json
  | arr (elems : List Json) : Json
  | obj (entries : List (String × Json)) : Json

/-- A JSON object body: the (ordered) key/value pairs of a Python dict. -/
abbrev JDict := List (String × Json)

/-- Python dict lookup (`d[k]` / `d.get(k)`): first entry with the key. -/
def dictLookup : JDict → String → Option Json
  | [], _ => none
  | (k, v) :: rest, key => if k = key then some v else dictLookup rest key

/-- Python `k in d`. -/
def dictContains (m : JDict) (k : String) : Bool :=
  (dictLookup m k).isSome

/-- Python dict assignment `d[k] = v`: replace the entry in place when the
key is present (keeping its position), otherwise append at the end. -/
def dictSet : JDict → String → Json → JDict
  | [], key, v => [(key, v)]
  | (k, w) :: rest, key, v =>
      if k = key then (key, v) :: rest else (k, w) :: dictSet rest key v

theorem dictLookup_set_same (m : JDict) (key : String) (v : Json) :
    dictLookup (dictSet m key v) key = some v := by
  induction m with
  | nil => simp [dictSet, dictLookup]
  | cons p rest ih =>
    obtain ⟨k, w⟩ := p
    by_cases hk : k = key
    · simp [dictSet, hk, dictLookup]
    · simp [dictSet, hk, dictLookup, ih]

theorem dictLookup_set_other (m : JDict) (key other : String) (v : Json)
    (h : other ≠ key) :
    dictLookup (dictSet m key v) other = dictLookup m other := by
  induction m with
  | nil => simp [dictSet, dictLookup, Ne.symm h]
  | cons p rest ih =>
    obtain ⟨k, w⟩ := p
    by_cases hk : k = key
    · simp [dictSet, hk, dictLookup, Ne.symm h]
    · by_cases ho : k = other
      · simp [dictSet, hk, dictLookup, ho, h]
      · simp [dictSet, hk, dictLookup, ho, ih]

/-- The lines of a text file (split at newline characters). -/
def strLines (s : String) : List String :=
  (s.data.splitOn '\n').map List.asString

/-- Python `str.strip()`: drop leading and trailing whitespace. -/
def pyStrip (s : String) : String :=
  ((s.data.dropWhile Char.isWhitespace).reverse.dropWhile Char.isWhitespace).reverse.asString

/-- Python `str.lower()`. -/
def pyLower (s : String) : String :=
  (s.data.map Char.toLower).asString

/-! ### Python `json` serialization (`json.dump(obj, f, indent=2)`)

Both scripts serialize every settings document they write — the backup
copy and the merged settings file — with `json.dump(..., indent=2)`, so
the bytes they write are a re-serialization of the parsed document, not
a copy of the original file. -/

def quoteChar : Char := Char.ofNat 34

def backslashChar : Char := Char.ofNat 92

def lbraceChar : Char := Char.ofNat 123

def rbraceChar : Char := Char.ofNat 125

def hexDigitChar (n : Nat) : Char :=
  if n < 10 then Char.ofNat (48 + n) else Char.ofNat (87 + n)

def hex4 (n : Nat) : List Char :=
  [hexDigitChar (n / 4096 % 16), hexDigitChar (n / 256 % 16),
   hexDigitChar (n / 16 % 16), hexDigitChar (n % 16)]

/-- JSON string-character escaping as `json.dumps` performs it with the
default `ensure_ascii=True`: the two-character escapes, and `\uXXXX`
(with a surrogate pair for astral characters) for everything outside
printable ASCII. -/
def escapeJChar (c : Char) : List Char :=
  if c = quoteChar then [backslashChar, quoteChar]
  else if c = backslashChar then [backslashChar, backslashChar]
  else if c = '\n' then [backslashChar, 'n']
  else if c = '\t' then [backslashChar, 't']
  else if c = '\r' then [backslashChar, 'r']
  else if c = Char.ofNat 8 then [backslashChar, 'b']
  else if c = Char.ofNat 12 then [backslashChar, 'f']
  else if c.toNat < 32 ∨ 126 < c.toNat then
    if c.toNat < 65536 then backslashChar :: 'u' :: hex4 c.toNat
    else
      (backslashChar :: 'u' :: hex4 (55296 + (c.toNat - 65536) / 1024)) ++
      (backslashChar :: 'u' :: hex4 (56320 + (c.toNat - 65536) % 1024))
  else [c]

def renderJString (s : String) : String :=
  (quoteChar :: (s.data.flatMap escapeJChar) ++ [quoteChar]).asString

/-- `indent=2`: each nesting level indents by two spaces. -/
def jsonIndent (level : Nat) : String :=
  (List.replicate (2 * level) ' ').asString

mutual
/-- `json.dumps(doc, indent=2)` at a nesting level: newline-separated
items, two spaces of indentation per level, `": "` after keys and `","`
between items (Python's default separators when `indent` is given),
empty containers rendered inline. -/
def dumpJson (level : Nat) : Json → String
  | Json.null => "null"
  | Json.bool b => if b then "true" else "false"
  | Json.num n => toString n
  | Json.str s => renderJString s
  | Json.arr [] => "[]"
  | Json.arr (x :: xs) =>
      "[\n" ++ jsonIndent (level + 1) ++ dumpJson (level + 1) x ++
        dumpArrItems (level + 1) xs ++ "\n" ++ jsonIndent level ++ "]"
  | Json.obj [] => "\x7b\x7d"
  | Json.obj ((k, v) :: kvs) =>
      "\x7b\n" ++ jsonIndent (level + 1) ++ renderJString k ++ ": " ++
        dumpJson (level + 1) v ++ dumpObjItems (level + 1) kvs ++ "\n" ++
        jsonIndent level ++ "\x7d"

def dumpArrItems (level : Nat) : List Json → String
  | [] => ""
  | x :: xs => ",\n" ++ jsonIndent level ++ dumpJson level x ++ dumpArrItems level xs

def dumpObjItems (level : Nat) : List (String × Json) → String
  | [] => ""
  | (k, v) :: kvs =>
      ",\n" ++ jsonIndent level ++ renderJString k ++ ": " ++ dumpJson level v ++
        dumpObjItems level kvs
end

/-- `json.dump(doc, f, indent=2)`: the exact bytes written (no trailing
newline). -/
def pyJsonDump (doc : Json) : String := dumpJson 0 doc

/-! ### Python `json` parsing (`json.load(f)`)

A recursive-descent JSON parser with Python's whitespace set, string
escapes (including surrogate pairs), strict literals, and last-wins
duplicate object keys.  All failures are collapsed into the single error
marker `"JSONDecodeError"` (Python raises `json.JSONDecodeError`, a
`ValueError` subclass).  Two model restrictions, both inherited from the
`Json` type used throughout this development: numbers are integers, so
fractional or exponent literals are treated as parse failures, and
strings hold Unicode scalar values, so lone-surrogate escapes are
treated as parse failures. -/

def isJsonWs (c : Char) : Bool :=
  c = ' ' ∨ c = '\t' ∨ c = '\n' ∨ c = '\r'

def skipJsonWs (input : List Char) : List Char :=
  input.dropWhile isJsonWs

def hexVal (c : Char) : Option Nat :=
  if 48 ≤ c.toNat ∧ c.toNat ≤ 57 then some (c.toNat - 48)
  else if 97 ≤ c.toNat ∧ c.toNat ≤ 102 then some (c.toNat - 87)
  else if 65 ≤ c.toNat ∧ c.toNat ≤ 70 then some (c.toNat - 55)
  else none

/-- Body of a JSON string after the opening quote: accumulate characters
(reversed) until the closing quote, decoding escapes. -/
def parseJStringAux : List Char → List Char → Except String (String × List Char)
  | _, [] => Except.error "JSONDecodeError"
  | acc, c :: rest =>
    if c = quoteChar then Except.ok (acc.reverse.asString, rest)
    else if c = backslashChar then
      match rest with
      | [] => Except.error "JSONDecodeError"
      | e :: rest2 =>
        if e = quoteChar then parseJStringAux (quoteChar :: acc) rest2
        else if e = backslashChar then parseJStringAux (backslashChar :: acc) rest2
        else if e = '/' then parseJStringAux ('/' :: acc) rest2
        else if e = 'n' then parseJStringAux ('\n' :: acc) rest2
        else if e = 't' then parseJStringAux ('\t' :: acc) rest2
        else if e = 'r' then parseJStringAux ('\r' :: acc) rest2
        else if e = 'b' then parseJStringAux (Char.ofNat 8 :: acc) rest2
        else if e = 'f' then parseJStringAux (Char.ofNat 12 :: acc) rest2
        else if e = 'u' then
          match rest2 with
          | h1 :: h2 :: h3 :: h4 :: rest3 =>
            match hexVal h1, hexVal h2, hexVal h3, hexVal h4 with
            | some v1, some v2, some v3, some v4 =>
              let n := v1 * 4096 + v2 * 256 + v3 * 16 + v4
              if n < 55296 ∨ 57343 < n then
                parseJStringAux (Char.ofNat n :: acc) rest3
              else if n < 56320 then
                match rest3 with
                | b1 :: b2 :: g1 :: g2 :: g3 :: g4 :: rest4 =>
                  if b1 = backslashChar ∧ b2 = 'u' then
                    match hexVal g1, hexVal g2, hexVal g3, hexVal g4 with
                    | some w1, some w2, some w3, some w4 =>
                      let m := w1 * 4096 + w2 * 256 + w3 * 16 + w4
                      if 56320 ≤ m ∧ m ≤ 57343 then
                        parseJStringAux
                          (Char.ofNat (65536 + (n - 55296) * 1024 + (m - 56320)) :: acc)
                          rest4
                      else Except.error "JSONDecodeError"
                    | _, _, _, _ => Except.error "JSONDecodeError"
                  else Except.error "JSONDecodeError"
                | _ => Except.error "JSONDecodeError"
              else Except.error "JSONDecodeError"
            | _, _, _, _ => Except.error "JSONDecodeError"
          | _ => Except.error "JSONDecodeError"
        else Except.error "JSONDecodeError"
    else if c.toNat < 32 then Except.error "JSONDecodeError"
    else parseJStringAux (c :: acc) rest

def parseJString (input : List Char) : Except String (String × List Char) :=
  parseJStringAux [] input

def natOfDigits (digits : List Char) : Nat :=
  digits.foldl (fun acc c => acc * 10 + (c.toNat - 48)) 0

/-- An integer literal: optional minus, digits, no leading zero; a
following `.`, `e` or `E` (a float in Python) is outside the model. -/
def parseNumber (input : List Char) : Except String (Json × List Char) :=
  let negRest : Bool × List Char :=
    match input with
    | '-' :: r => (true, r)
    | r => (false, r)
  let digits := negRest.2.takeWhile Char.isDigit
  let rem := negRest.2.dropWhile Char.isDigit
  if digits.isEmpty then Except.error "JSONDecodeError"
  else if 1 < digits.length ∧ digits.head? = some '0' then Except.error "JSONDecodeError"
  else
    match rem with
    | '.' :: _ => Except.error "JSONDecodeError"
    | 'e' :: _ => Except.error "JSONDecodeError"
    | 'E' :: _ => Except.error "JSONDecodeError"
    | _ =>
      let n : Int := Int.ofNat (natOfDigits digits)
      Except.ok (Json.num (if negRest.1 then -n else n), rem)

mutual
/-- One JSON value, by first character; `fuel` only bounds recursion
depth and is chosen large enough at the top entry. -/
def parseJValue : Nat → List Char → Except String (Json × List Char)
  | 0, _ => Except.error "JSONDecodeError"
  | fuel + 1, input =>
    match skipJsonWs input with
    | [] => Except.error "JSONDecodeError"
    | c :: rest =>
      if c = lbraceChar then parseJObj fuel rest
      else if c = '[' then parseJArr fuel rest
      else if c = quoteChar then
        match parseJString rest with
        | Except.ok (s, rem) => Except.ok (Json.str s, rem)
        | Except.error e => Except.error e
      else if c = 't' then
        if rest.take 3 = ['r', 'u', 'e'] then Except.ok (Json.bool true, rest.drop 3)
        else Except.error "JSONDecodeError"
      else if c = 'f' then
        if rest.take 4 = ['a', 'l', 's', 'e'] then Except.ok (Json.bool false, rest.drop 4)
        else Except.error "JSONDecodeError"
      else if c = 'n' then
        if rest.take 3 = ['u', 'l', 'l'] then Except.ok (Json.null, rest.drop 3)
        else Except.error "JSONDecodeError"
      else if c = '-' ∨ c.isDigit then parseNumber (c :: rest)
      else Except.error "JSONDecodeError"

def parseJObj : Nat → List Char → Except String (Json × List Char)
  | 0, _ => Except.error "JSONDecodeError"
  | fuel + 1, input =>
    match skipJsonWs input with
    | [] => Except.error "JSONDecodeError"
    | c :: rest =>
      if c = rbraceChar then Except.ok (Json.obj [], rest)
      else parseJMembers fuel (c :: rest) []

/-- Object members; a repeated key overwrites the earlier entry
(`dictSet`), as Python dict construction does. -/
def parseJMembers : Nat → List Char → JDict → Except String (Json × List Char)
  | 0, _, _ => Except.error "JSONDecodeError"
  | fuel + 1, input, acc =>
    match skipJsonWs input with
    | [] => Except.error "JSONDecodeError"
    | c :: rest =>
      if c = quoteChar then
        match parseJString rest with
        | Except.error e => Except.error e
        | Except.ok (key, rem) =>
          match skipJsonWs rem with
          | ':' :: rem2 =>
            match parseJValue fuel rem2 with
            | Except.error e => Except.error e
            | Except.ok (v, rem3) =>
              let acc2 := dictSet acc key v
              match skipJsonWs rem3 with
              | ',' :: rem4 => parseJMembers fuel rem4 acc2
              | d :: rem4 =>
                if d = rbraceChar then Except.ok (Json.obj acc2, rem4)
                else Except.error "JSONDecodeError"
              | [] => Except.error "JSONDecodeError"
          | _ => Except.error "JSONDecodeError"
      else Except.error "JSONDecodeError"

def parseJArr : Nat → List Char → Except String (Json × List Char)
  | 0, _ => Except.error "JSONDecodeError"
  | fuel + 1, input =>
    match skipJsonWs input with
    | [] => Except.error "JSONDecodeError"
    | c :: rest =>
      if c = ']' then Except.ok (Json.arr [], rest)
      else parseJElems fuel (c :: rest) []

def parseJElems : Nat → List Char → List Json → Except String (Json × List Char)
  | 0, _, _ => Except.error "JSONDecodeError"
  | fuel + 1, input, acc =>
    match parseJValue fuel input with
    | Except.error e => Except.error e
    | Except.ok (v, rem) =>
      match skipJsonWs rem with
      | ',' :: rem2 => parseJElems fuel rem2 (acc ++ [v])
      | ']' :: rem2 => Except.ok (Json.arr (acc ++ [v]), rem2)
      | _ => Except.error "JSONDecodeError"
end

/-- `json.load(f)` on a file holding `s`: parse one value, allow only
trailing whitespace.  The fuel bound exceeds any possible recursion
depth for the input. -/
def pyJsonLoad (s : String) : Except String Json :=
  match parseJValue (2 * s.data.length + 2) s.data with
  | Except.error e => Except.error e
  | Except.ok (v, rem) =>
      if (skipJsonWs rem).isEmpty then Except.ok v
      else Except.error "JSONDecodeError"

/-! ### The MCP settings merge (shared, line for line, by both scripts) -/

/-- The `mcpServers.supabase` entry written by both scripts. -/
def supabaseServerEntry (project_ref access_token : String) : Json :=
  Json.obj
    [("type", Json.str "http"),
     ("url", Json.str ("https://mcp.supabase.com/mcp?project_ref=" ++ project_ref)),
     ("headers", Json.obj [("Authorization", Json.str ("Bearer " ++ access_token))])]

/-- The in-memory merge both scripts perform on the parsed settings object:
`if "mcpServers" not in settings: settings["mcpServers"] = {}` followed by
`settings["mcpServers"]["supabase"] = entry`.  The second statement raises a
`TypeError` when the value stored under `"mcpServers"` is not a dict. -/
def mergeMcpSettings (settings : JDict) (entry : Json) : Except String JDict :=
  let settings1 :=
    if dictContains settings "mcpServers" then settings
    else dictSet settings "mcpServers" (Json.obj [])
  match dictLookup settings1 "mcpServers" with
  | some (Json.obj servers) =>
      Except.ok (dictSet settings1 "mcpServers" (Json.obj (dictSet servers "supabase" entry)))
  | _ => Except.error "TypeError"

/-! ### Observable effects -/

/-- What a file write carries: plain text for the `.env` file, a JSON
document for `json.dump` writes. -/
inductive FileData where
  | text (s : String) : FileData
  | jsonDoc (doc : Json) : FileData

/-- One observable side effect of a script run. -/
inductive Event where
  | httpGet (url : String) : Event
  | httpPost (url : String) : Event
  | fileWrite (path : String) (data : FileData) : Event
  | sleep (seconds : Nat) : Event
  | exitCode (code : Nat) : Event
  | raise (msg : String) : Event

def organizationsUrl : String := "https://api.supabase.com/v1/organizations"

def projectsUrl : String := "https://api.supabase.com/v1/projects"

def apiKeysUrl (project_ref : String) : String :=
  "https://api.supabase.com/v1/projects/" ++ project_ref ++ "/api-keys"

def settingsJsonPath : String := "~/.claude/settings.json"

/-- `settings_path.with_suffix(".json.backup")`. -/
def settingsBackupPath : String := "~/.claude/settings.json.backup"

/-- `True` for the HTTP request events. -/
def isNetwork : Event → Bool
  | Event.httpGet _ => true
  | Event.httpPost _ => true
  | _ => false

/-- `True` for the file-write events. -/
def isFileWrite : Event → Bool
  | Event.fileWrite _ _ => true
  | _ => false

/-- `True` for project-related API calls (anything beyond the
organization listing): project listing or creation, and key fetches. -/
def isProjectApiCall : Event → Bool
  | Event.httpGet url => url != organizationsUrl
  | Event.httpPost _ => true
  | _ => false

/-! ### API-key retrieval -/

/-- One key record of the `/api-keys` response. -/
structure KeyEntry where
  name : String
  api_key : String

/-- `next((k["api_key"] for k in keys if k.get("name") == n), "")`. -/
def findApiKey (keys : List KeyEntry) (keyName : String) : String :=
  match keys.find? (fun k => k.name == keyName) with
  | some k => k.api_key
  | none => ""

/-- The polling loop `for attempt in range(fuel): time.sleep(3); ...` of
both scripts.  `oracle i` is the parsed body of the `i`-th key request
(`none` models a non-200 status or a request exception, both of which the
loop ignores).  Returns the final `(anon_key, service_key)` pair and the
trace of effects. -/
def pollApiKeys (oracle : Nat → Option (List KeyEntry)) (url : String) :
    Nat → Nat → String × String → (String × String) × List Event
  | _, 0, acc => (acc, [])
  | attempt, fuel + 1, acc =>
      let evs : List Event := [Event.sleep 3, Event.httpGet url]
      match oracle attempt with
      | some keys =>
          let anon_key := findApiKey keys "anon"
          let service_key := findApiKey keys "service_role"
          if anon_key ≠ "" ∧ service_key ≠ "" then
            ((anon_key, service_key), evs)
          else
            let r := pollApiKeys oracle url (attempt + 1) fuel (anon_key, service_key)
            (r.1, evs ++ r.2)
      | none =>
          let r := pollApiKeys oracle url (attempt + 1) fuel acc
          (r.1, evs ++ r.2)

/-! ### `configure_everything` (setup_supabase.py, lines 221-318) -/

/-- The `.env` template of `setup_supabase.py` (the `env_content`
f-string, lines 230-262). -/
def env_content (project_url anon_key service_key project_ref region db_password : String) :
    String :=
  "# Supabase Configuration\n# Auto-generated by setup_supabase.py\n\n# ============================================\n# SUPABASE - Python Client\n# ============================================\nSUPABASE_URL=" ++ project_url ++
  "\nSUPABASE_KEY=" ++ anon_key ++
  "\nSUPABASE_SERVICE_ROLE_KEY=" ++ service_key ++
  "\n\n# ============================================\n# SUPABASE - MCP Server Reference\n# ============================================\n# These are configured in ~/.claude/settings.json\n# SUPABASE_ACCESS_TOKEN=(your access token)\n# SUPABASE_PROJECT_REF=" ++ project_ref ++
  "\n# SUPABASE_REGION=" ++ region ++
  "\n\n# Project database password (keep secure!)\nSUPABASE_DB_PASSWORD=" ++ db_password ++
  "\n\n# ============================================\n# PROJECT SETTINGS\n# ============================================\nDEBUG=true\nLOG_LEVEL=info\n\n# ============================================\n# FINANCIAL DATA SOURCES\n# ============================================\n# ALPHA_VANTAGE_API_KEY=\n# FINNHUB_API_KEY=\n"

/-- The settings-file part shared verbatim by both scripts: read the
existing settings document if the file exists (`prior = some doc`), write
a backup of it, merge in the `supabase` MCP entry and write the result
back; a document whose `mcpServers` value is not an object makes the
item assignment raise after the backup was written.  A non-object
top-level document likewise raises on item assignment. -/
def mcp_settings_events (access_token project_ref : String) (prior : Option Json) :
    List Event :=
  let entry := supabaseServerEntry project_ref access_token
  match prior with
  | none =>
      match mergeMcpSettings [] entry with
      | Except.ok merged =>
          [Event.fileWrite settingsJsonPath (FileData.jsonDoc (Json.obj merged))]
      | Except.error msg => [Event.raise msg]
  | some doc =>
      Event.fileWrite settingsBackupPath (FileData.jsonDoc doc) ::
      match doc with
      | Json.obj entries =>
          match mergeMcpSettings entries entry with
          | Except.ok merged =>
              [Event.fileWrite settingsJsonPath (FileData.jsonDoc (Json.obj merged))]
          | Except.error msg => [Event.raise msg]
      | _ => [Event.raise "TypeError"]

/-! #### Byte-level model of the settings-file segment

`mcp_settings_events` models JSON file contents at the document level,
which is adequate for the merge and event-ordering claims, but not for
claims about the exact bytes of the files: the scripts read the prior
file with `json.load` (which raises on an unparseable file, before any
write) and write the backup and the settings file with
`json.dump(..., indent=2)` (a re-serialization of the parsed document).
The following stages model those same source lines with file contents as
raw text. -/

/-- Byte-level settings-file write: `json.dump(settings, f, indent=2)`
on the merge result (or the `TypeError` propagating out). -/
def mcp_settings_file_write : Except String JDict → List Event
  | Except.ok merged =>
      [Event.fileWrite settingsJsonPath (FileData.text (pyJsonDump (Json.obj merged)))]
  | Except.error msg => [Event.raise msg]

/-- Byte-level merge step on the parsed prior document. -/
def mcp_settings_file_merge (access_token project_ref : String) : Json → List Event
  | Json.obj entries =>
      mcp_settings_file_write
        (mergeMcpSettings entries (supabaseServerEntry project_ref access_token))
  | _ => [Event.raise "TypeError"]

/-- Byte-level continuation after `json.load`: a parse failure raises
before anything is written; a parsed document is first backed up as its
`indent=2` re-serialization, then merged and written back. -/
def mcp_settings_file_parsed (access_token project_ref : String) :
    Except String Json → List Event
  | Except.error msg => [Event.raise msg]
  | Except.ok doc =>
      Event.fileWrite settingsBackupPath (FileData.text (pyJsonDump doc)) ::
      mcp_settings_file_merge access_token project_ref doc

/-- The settings-file segment of both scripts at the byte level:
`prior` is the raw contents of a pre-existing settings file (`none` when
the file does not exist). -/
def mcp_settings_events_file (access_token project_ref : String) :
    Option String → List Event
  | none =>
      mcp_settings_file_write
        (mergeMcpSettings [] (supabaseServerEntry project_ref access_token))
  | some raw => mcp_settings_file_parsed access_token project_ref (pyJsonLoad raw)

/-- Replace a document-level file write by the bytes `json.dump` would
produce for it. -/
def renderEvent : Event → Event
  | Event.fileWrite path (FileData.jsonDoc doc) =>
      Event.fileWrite path (FileData.text (pyJsonDump doc))
  | e => e

/-- `configure_everything`: write the `.env` file, then update the Claude
settings file (backing up any pre-existing document first). -/
def configure_everything
    (access_token project_ref project_url anon_key service_key db_password region : String)
    (prior : Option Json) : List Event :=
  Event.fileWrite ".env"
      (FileData.text (env_content project_url anon_key service_key project_ref region db_password)) ::
  mcp_settings_events access_token project_ref prior

/-! ### `setup_supabase` (setup_supabase.py, lines 22-218) -/

/-- One organization record. -/
structure Org where
  id : String
  name : String

/-- One project record (`region` is `None` when the response lacks it;
the script then falls back to `"us-east-1"`). -/
structure ProjectInfo where
  id : String
  ref : String
  name : String
  region : Option String

/-- The region menu of `setup_supabase.py` (choice key, region code,
display name). -/
def regions : List (String × String × String) :=
  [("1", "us-east-1", "US East (N. Virginia)"),
   ("2", "us-west-1", "US West (N. California)"),
   ("3", "eu-west-1", "EU West (Ireland)"),
   ("4", "eu-central-1", "EU Central (Frankfurt)"),
   ("5", "ap-southeast-1", "Asia Pacific (Singapore)"),
   ("6", "ap-northeast-1", "Asia Pacific (Tokyo)")]

/-- Outcome of the dict subscript `regions[region_choice]` (projected to
the region code): an absent key raises `KeyError`. -/
def region_value : Option (String × String × String) → Except String String
  | some r => Except.ok r.2.1
  | none => Except.error "KeyError"

/-- `region_choice = input(...).strip() or "1"` followed by the dict
subscript `regions[region_choice][0]`. -/
def region_of_choice (raw : String) : Except String String :=
  region_value
    (regions.find? (fun r => r.1 == (if pyStrip raw = "" then "1" else pyStrip raw)))

/-- The interactive password loop (lines 145-153): strip the entry, ask
for a confirmation only when it has at least 12 characters, accept only
when the stripped confirmation matches.  The argument lists the operator
entries `(password, confirmation)` in order; `none` means every supplied
entry was rejected and the loop is still waiting for input. -/
def password_loop : List (String × String) → Option String
  | [] => none
  | (pw, confirm) :: rest =>
      let db_password := pyStrip pw
      if 12 ≤ db_password.length then
        if db_password = pyStrip confirm then some db_password
        else password_loop rest
      else password_loop rest

/-- All interactive answers and HTTP responses consumed by one run of
`setup_supabase`.  `none` responses model request exceptions. -/
structure SetupInputs where
  orgsResp : Option (List Org)
  orgChoice : Nat
  projectsResp : Option (List ProjectInfo)
  useExisting : String
  existingChoice : Nat
  existingKeysResp : Option (List KeyEntry)
  existingDbPassword : String
  projectName : String
  regionChoice : String
  passwordAttempts : List (String × String)
  createResp : Option ProjectInfo
  keyOracle : Nat → Option (List KeyEntry)
  priorSettings : Option Json

/-- `setup_supabase` is embedded as a chain of stages, one per control
point of the source function; each stage matches on the data that decides
the corresponding branch.  Stage: key fetch of the existing-project
branch (lines 96-119), ending in `configure_everything`. -/
def setup_existing (access_token : String) (inp : SetupInputs) (project : ProjectInfo) :
    List Event :=
  let project_ref := project.ref
  let project_url := "https://" ++ project_ref ++ ".supabase.co"
  let region := project.region.getD "us-east-1"
  Event.httpGet (apiKeysUrl project_ref) ::
  let keyPair :=
    match inp.existingKeysResp with
    | some keys => (findApiKey keys "anon", findApiKey keys "service_role")
    | none => ("", "")
  let db_password := pyStrip inp.existingDbPassword
  configure_everything access_token project_ref project_url
    keyPair.1 keyPair.2 db_password region inp.priorSettings

/-- Stage: after the creation POST (lines 159-218): provisioning failure
aborts, success polls for keys (5 attempts) and configures. -/
def setup_afterCreate (access_token : String) (inp : SetupInputs)
    (region db_password : String) : Option ProjectInfo → List Event
  | none => []
  | some project =>
      let project_ref := project.ref
      let project_url := "https://" ++ project_ref ++ ".supabase.co"
      let r := pollApiKeys inp.keyOracle (apiKeysUrl project_ref) 0 5 ("", "")
      r.2 ++
      configure_everything access_token project_ref project_url
        r.1.1 r.1.2 db_password region inp.priorSettings

/-- Stage: with the region resolved, run the password loop; an accepted
password reaches the creation POST (lines 144-171). -/
def setup_withPassword (access_token : String) (inp : SetupInputs) (region : String) :
    Option String → List Event
  | none => []
  | some db_password =>
      Event.httpPost projectsUrl ::
      setup_afterCreate access_token inp region db_password inp.createResp

/-- Stage: outcome of the region menu subscript (lines 140-141): a
`KeyError` aborts the run. -/
def setup_withRegion (access_token : String) (inp : SetupInputs) :
    Except String String → List Event
  | Except.error msg => [Event.raise msg]
  | Except.ok region =>
      setup_withPassword access_token inp region (password_loop inp.passwordAttempts)

/-- Stage: the creation branch (lines 121-218): region menu, password
loop, creation POST. -/
def setup_create (access_token : String) (inp : SetupInputs) : List Event :=
  setup_withRegion access_token inp (region_of_choice inp.regionChoice)

/-- Stage: choose between reusing an existing project and creating a new
one (lines 81-121). -/
def setup_branch (access_token : String) (inp : SetupInputs)
    (existing : List ProjectInfo) : List Event :=
  if !existing.isEmpty && (pyStrip (pyLower inp.useExisting) == "y") then
    match existing.get? (inp.existingChoice - 1) with
    | none => [Event.raise "IndexError"]
    | some project => setup_existing access_token inp project
  else setup_create access_token inp

/-- Stage: after organization selection (lines 65-121): list projects,
then branch. -/
def setup_selectedOrg (access_token : String) (inp : SetupInputs) :
    Option Org → List Event
  | none => [Event.raise "IndexError"]
  | some _selected_org =>
      Event.httpGet projectsUrl ::
      setup_branch access_token inp (inp.projectsResp.getD [])

/-- Stage: after the organization response (lines 44-63). -/
def setup_afterOrgs (access_token : String) (inp : SetupInputs) :
    Option (List Org) → List Event
  | none => []
  | some orgs =>
      if orgs.isEmpty then []
      else
        setup_selectedOrg access_token inp
          (if orgs.length == 1 then orgs.get? 0 else orgs.get? (inp.orgChoice - 1))

/-- The `setup_supabase` function: organization fetch and selection,
existing-project reuse or project creation, bounded key polling, then
`configure_everything`. -/
def setup_supabase (access_token : String) (inp : SetupInputs) : List Event :=
  Event.httpGet organizationsUrl ::
  setup_afterOrgs access_token inp inp.orgsResp

/-- `access_token = os.getenv(...)`, falling back to a stripped
interactive entry when the variable is unset or empty. -/
def effective_token (envToken : Option String) (promptToken : String) : String :=
  let fromEnv := envToken.getD ""
  if fromEnv = "" then pyStrip promptToken else fromEnv

/-- The `main()` entry point of `setup_supabase.py`: resolve the token,
exit with status 1 when it is empty, otherwise run `setup_supabase`. -/
def setup_main (envToken : Option String) (promptToken : String) (inp : SetupInputs) :
    List Event :=
  let access_token := effective_token envToken promptToken
  if access_token = "" then [Event.exitCode 1]
  else setup_supabase access_token inp

/-! ### create_polarity.py (module-level script) -/

/-- Inputs consumed by one run of `create_polarity.py`. -/
structure PolarityInputs where
  orgsResp : Option (List Org)
  createStatus : Nat
  createResp : ProjectInfo
  keyOracle : Nat → Option (List KeyEntry)
  priorSettings : Option Json
  timestamp : String

def POLARITY_REGION : String := "ap-northeast-1"

def POLARITY_DB_PASSWORD : String := "Dydgns0312!"

/-- The `.env` template of `create_polarity.py` (lines 107-146). -/
def polarity_env_content (timestamp project_url anon_key service_key project_ref : String) :
    String :=
  "# Supabase Project: Polarity\n# Region: Tokyo (ap-northeast-1) - Optimized for South Korea\n# Created: " ++ timestamp ++
  "\n\n# ============================================\n# SUPABASE CREDENTIALS\n# ============================================\nSUPABASE_URL=" ++ project_url ++
  "\nSUPABASE_KEY=" ++ anon_key ++
  "\nSUPABASE_SERVICE_ROLE_KEY=" ++ service_key ++
  "\n\n# ============================================\n# PROJECT DETAILS\n# ============================================\nSUPABASE_PROJECT_REF=" ++ project_ref ++
  "\nSUPABASE_REGION=" ++ POLARITY_REGION ++
  "\nSUPABASE_DB_PASSWORD=" ++ POLARITY_DB_PASSWORD ++
  "\n\n# ⚠️  SECURITY WARNING:\n# - Never commit this file to git (.env is in .gitignore)\n# - SERVICE_ROLE_KEY bypasses all Row Level Security\n# - Keep database password secure\n\n# ============================================\n# APPLICATION SETTINGS\n# ============================================\nDEBUG=true\nLOG_LEVEL=info\n\n# ============================================\n# FINANCIAL DATA API KEYS\n# ============================================\n# Alpha Vantage: https://www.alphavantage.co/support/#api-key\n# ALPHA_VANTAGE_API_KEY=\n\n# Finnhub: https://finnhub.io/dashboard\n# FINNHUB_API_KEY=\n\n# ============================================\n"

/-- Stage: after a successful creation POST (lines 70-182): ten-attempt
key polling, `.env` write, then the shared settings update. -/
def polarity_provision (access_token : String) (inp : PolarityInputs) : List Event :=
  let project_ref := inp.createResp.ref
  let project_url := "https://" ++ project_ref ++ ".supabase.co"
  let r := pollApiKeys inp.keyOracle (apiKeysUrl project_ref) 0 10 ("", "")
  r.2 ++
  Event.fileWrite ".env"
      (FileData.text (polarity_env_content inp.timestamp project_url r.1.1 r.1.2 project_ref)) ::
  mcp_settings_events access_token project_ref inp.priorSettings

/-- Stage: with an organization in hand (lines 51-68): creation POST and
status check. -/
def polarity_withOrg (access_token : String) (inp : PolarityInputs) :
    Option Org → List Event
  | none => [Event.raise "IndexError"]
  | some _org =>
      Event.httpPost projectsUrl ::
      if inp.createStatus ≠ 200 ∧ inp.createStatus ≠ 201 then [Event.exitCode 1]
      else polarity_provision access_token inp

/-- Stage: after the organization response (lines 43-48):
`raise_for_status`, then the `orgs[0]` subscript. -/
def polarity_afterOrgs (access_token : String) (inp : PolarityInputs) :
    Option (List Org) → List Event
  | none => [Event.raise "HTTPError"]
  | some orgs => polarity_withOrg access_token inp (orgs.get? 0)

/-- The whole `create_polarity.py` script: token guard, organization
fetch (`raise_for_status`, then an `IndexError` on an empty list),
project creation with an explicit status check, ten-attempt key polling,
`.env` write, then the shared settings update. -/
def create_polarity (envToken : Option String) (inp : PolarityInputs) : List Event :=
  let access_token := envToken.getD ""
  if access_token = "" then [Event.exitCode 1]
  else
    Event.httpGet organizationsUrl ::
    polarity_afterOrgs access_token inp inp.orgsResp

/-! ### Helper lemmas -/

theorem dictContains_false_lookup {m : JDict} {k : String}
    (h : dictContains m k = false) : dictLookup m k = none := by
  unfold dictContains at h
  cases hl : dictLookup m k with
  | none => rfl
  | some v => rw [hl] at h; simp at h

/-! ### C1 -/

def C1w_settings : JDict :=
  [("alpha", Json.num 1), ("mcpServers", Json.obj [("other", Json.str "keep")])]

def C1w_prior : JDict := [("other", Json.str "keep")]

def C1w_cur : JDict := [("other", Json.str "keep"), ("supabase", Json.str "entry")]

def C1w_merged : JDict := [("alpha", Json.num 1), ("mcpServers", Json.obj C1w_cur)]

/-- C1: for every pre-existing settings document, the merged document the
scripts write back maps every top-level key other than `mcpServers` to its
prior value, maps every key under `mcpServers` other than `supabase` to
its prior value, and maps `mcpServers.supabase` to the new entry. -/
theorem C1_settings_merge_frame (settings : JDict) (entry : Json) (merged : JDict)
    (h : mergeMcpSettings settings entry = Except.ok merged) :
    (∀ k, k ≠ "mcpServers" → dictLookup merged k = dictLookup settings k) ∧
    (∀ prior cur, dictLookup settings "mcpServers" = some (Json.obj prior) →
        dictLookup merged "mcpServers" = some (Json.obj cur) →
        ∀ k, k ≠ "supabase" → dictLookup cur k = dictLookup prior k) ∧
    (∃ servers, dictLookup merged "mcpServers" = some (Json.obj servers) ∧
        dictLookup servers "supabase" = some entry) := by
  unfold mergeMcpSettings at h
  simp only [] at h
  by_cases hc : dictContains settings "mcpServers"
  · rw [if_pos hc] at h
    cases hl : dictLookup settings "mcpServers" with
    | none => unfold dictContains at hc; rw [hl] at hc; simp at hc
    | some v =>
      rw [hl] at h
      cases v with
      | obj servers =>
        simp only [Except.ok.injEq] at h
        subst h
        refine ⟨?_, ?_, ?_⟩
        · intro k hk
          exact dictLookup_set_other _ _ _ _ hk
        · intro prior cur hp hcur k hk2
          have hps : servers = prior := by
            injection hp with hp1; injection hp1
          rw [dictLookup_set_same] at hcur
          have hcs : cur = dictSet servers "supabase" entry := by
            injection hcur with hc1; injection hc1 with hc2; exact hc2.symm
          subst hps; subst hcs
          exact dictLookup_set_other _ _ _ _ hk2
        · exact ⟨dictSet servers "supabase" entry, dictLookup_set_same _ _ _,
            dictLookup_set_same _ _ _⟩
      | null => simp at h
      | bool b => simp at h
      | num n => simp at h
      | str s => simp at h
      | arr elems => simp at h
  · rw [if_neg hc] at h
    rw [Bool.not_eq_true] at hc
    have hnone := dictContains_false_lookup hc
    rw [dictLookup_set_same] at h
    simp only [Except.ok.injEq] at h
    subst h
    refine ⟨?_, ?_, ?_⟩
    · intro k hk
      rw [dictLookup_set_other _ _ _ _ hk, dictLookup_set_other _ _ _ _ hk]
    · intro prior cur hp _hcur
      rw [hnone] at hp
      exact absurd hp (by simp)
    · refine ⟨dictSet [] "supabase" entry, dictLookup_set_same _ _ _, ?_⟩
      simp [dictSet, dictLookup]

/-- Witness for C1 at a concrete pre-existing document. -/
theorem C1_settings_merge_frame_witness :
    dictLookup C1w_merged "alpha" = dictLookup C1w_settings "alpha" ∧
    dictLookup C1w_cur "other" = dictLookup C1w_prior "other" ∧
    dictLookup C1w_merged "mcpServers" = some (Json.obj C1w_cur) ∧
    dictLookup C1w_cur "supabase" = some (Json.str "entry") := by
  have h := C1_settings_merge_frame C1w_settings (Json.str "entry") C1w_merged rfl
  refine ⟨h.1 "alpha" (by decide), ?_, ?_, ?_⟩
  · exact h.2.1 C1w_prior C1w_cur rfl rfl "other" (by decide)
  · rfl
  · rfl

/-! ### C2 -/

/-- The byte-level settings segment refines the document-level one: when
the prior file parses, its trace is the document-level trace with every
JSON file write re-serialized by `json.dump(..., indent=2)`; likewise
when no prior file exists. -/
theorem mcp_settings_events_file_renders (access_token project_ref : String) :
    (∀ raw doc, pyJsonLoad raw = Except.ok doc →
        mcp_settings_events_file access_token project_ref (some raw) =
          (mcp_settings_events access_token project_ref (some doc)).map renderEvent) ∧
    mcp_settings_events_file access_token project_ref none =
      (mcp_settings_events access_token project_ref none).map renderEvent := by
  constructor
  · intro raw doc hp
    simp only [mcp_settings_events_file, hp, mcp_settings_file_parsed]
    cases doc with
    | obj entries =>
      cases hm : mergeMcpSettings entries (supabaseServerEntry project_ref access_token) with
      | ok merged =>
        simp [mcp_settings_events, mcp_settings_file_merge, mcp_settings_file_write,
          hm, renderEvent]
      | error msg =>
        simp [mcp_settings_events, mcp_settings_file_merge, mcp_settings_file_write,
          hm, renderEvent]
    | null => simp [mcp_settings_events, mcp_settings_file_merge, renderEvent]
    | bool b => simp [mcp_settings_events, mcp_settings_file_merge, renderEvent]
    | num n => simp [mcp_settings_events, mcp_settings_file_merge, renderEvent]
    | str s => simp [mcp_settings_events, mcp_settings_file_merge, renderEvent]
    | arr elems => simp [mcp_settings_events, mcp_settings_file_merge, renderEvent]
  · cases hm : mergeMcpSettings [] (supabaseServerEntry project_ref access_token) with
    | ok merged =>
      simp [mcp_settings_events, mcp_settings_events_file, mcp_settings_file_write,
        hm, renderEvent]
    | error msg =>
      simp [mcp_settings_events, mcp_settings_events_file, mcp_settings_file_write,
        hm, renderEvent]

/-- Counterexample to C2 as stated: a pre-existing settings file holding
the compact bytes `{"a":1}` is parsed and backed up as its
`indent=2` re-serialization `{\n  "a": 1\n}` — different bytes, so no
file write carries the exact prior contents to the backup path; and a
pre-existing file that does not parse makes `json.load` raise before any
backup is written at all. -/
theorem C2_counterexample :
    pyJsonLoad "\x7b\"a\":1\x7d" = Except.ok (Json.obj [("a", Json.num 1)]) ∧
    pyJsonDump (Json.obj [("a", Json.num 1)]) = "\x7b\n  \"a\": 1\n\x7d" ∧
    mcp_settings_events_file "tok" "refx" (some "\x7b\"a\":1\x7d") =
      [Event.fileWrite settingsBackupPath (FileData.text "\x7b\n  \"a\": 1\n\x7d"),
       Event.fileWrite settingsJsonPath (FileData.text (pyJsonDump (Json.obj
         [("a", Json.num 1),
          ("mcpServers", Json.obj [("supabase", supabaseServerEntry "refx" "tok")])])))] ∧
    Event.fileWrite settingsBackupPath (FileData.text "\x7b\"a\":1\x7d") ∉
      mcp_settings_events_file "tok" "refx" (some "\x7b\"a\":1\x7d") ∧
    "\x7b\n  \"a\": 1\n\x7d" ≠ "\x7b\"a\":1\x7d" ∧
    mcp_settings_events_file "tok" "refx" (some "\x7boops") =
      [Event.raise "JSONDecodeError"] := by
  refine ⟨rfl, rfl, rfl, ?_, by decide, rfl⟩
  intro hmem
  have htr : mcp_settings_events_file "tok" "refx" (some "\x7b\"a\":1\x7d") =
      [Event.fileWrite settingsBackupPath (FileData.text "\x7b\n  \"a\": 1\n\x7d"),
       Event.fileWrite settingsJsonPath (FileData.text (pyJsonDump (Json.obj
         [("a", Json.num 1),
          ("mcpServers", Json.obj [("supabase", supabaseServerEntry "refx" "tok")])])))] := rfl
  rw [htr] at hmem
  simp only [List.mem_cons, List.not_mem_nil, or_false] at hmem
  rcases hmem with h | h
  · injection h with hpath hdata
    injection hdata with hs
    exact absurd hs (by decide)
  · injection h with hpath hdata
    exact absurd hpath (by decide)

/-- C2 (amended): whenever the settings file existed before the run and
its contents parse as JSON, a backup file is written before the settings
file is mutated, and the backup bytes are the `json.dump(..., indent=2)`
re-serialization of the parsed prior document — the same JSON document as
the prior file, though not necessarily the same bytes; when the prior
contents do not parse, the run raises at `json.load` before writing any
backup and without touching the settings file. -/
theorem C2_backup_reserialized_before_mutation (access_token project_ref : String)
    (raw : String) (doc : Json)
    (hparse : pyJsonLoad raw = Except.ok doc) :
    (∃ tail, mcp_settings_events_file access_token project_ref (some raw) =
        Event.fileWrite settingsBackupPath (FileData.text (pyJsonDump doc)) :: tail) ∧
    (∀ d pre post,
        mcp_settings_events_file access_token project_ref (some raw) =
          pre ++ Event.fileWrite settingsJsonPath d :: post →
        Event.fileWrite settingsBackupPath (FileData.text (pyJsonDump doc)) ∈ pre) ∧
    (∀ raw2 msg, pyJsonLoad raw2 = Except.error msg →
        mcp_settings_events_file access_token project_ref (some raw2) =
          [Event.raise msg]) := by
  have htl : mcp_settings_events_file access_token project_ref (some raw) =
      Event.fileWrite settingsBackupPath (FileData.text (pyJsonDump doc)) ::
        mcp_settings_file_merge access_token project_ref doc := by
    simp only [mcp_settings_events_file, hparse, mcp_settings_file_parsed]
  refine ⟨⟨_, htl⟩, ?_, ?_⟩
  · intro d pre post heq
    rw [htl] at heq
    cases pre with
    | nil =>
      simp only [List.nil_append, List.cons.injEq] at heq
      have h1 := heq.1
      injection h1 with hpath _
      exact absurd hpath (by decide)
    | cons x pre2 =>
      simp only [List.cons_append, List.cons.injEq] at heq
      rw [heq.1]
      exact List.mem_cons_self _ _
  · intro raw2 msg h2
    simp only [mcp_settings_events_file, h2, mcp_settings_file_parsed]

/-- Witness for the amended C2: a concrete parseable prior file is backed
up (re-serialized) first, and a concrete unparseable one raises without
any write. -/
theorem C2_backup_reserialized_witness :
    (∃ tail, mcp_settings_events_file "tok" "refx" (some "\x7b\"a\":1\x7d") =
        Event.fileWrite settingsBackupPath
          (FileData.text (pyJsonDump (Json.obj [("a", Json.num 1)]))) :: tail) ∧
    mcp_settings_events_file "tok" "refx" (some "\x7boops") =
      [Event.raise "JSONDecodeError"] := by
  have h := C2_backup_reserialized_before_mutation "tok" "refx" "\x7b\"a\":1\x7d"
    (Json.obj [("a", Json.num 1)]) rfl
  exact ⟨h.1, h.2.2 "\x7boops" "JSONDecodeError" rfl⟩

/-! ### C9 -/

/-- C9: when the pre-existing settings document maps `mcpServers` to a
value that is not a JSON object, the run writes the `.env` file and the
backup file and then raises an uncaught `TypeError`; the settings file is
never written. -/
theorem C9_non_object_mcpServers
    (access_token project_ref project_url anon_key service_key db_password region : String)
    (entries : JDict) (v : Json)
    (hv : dictLookup entries "mcpServers" = some v)
    (hno : ∀ m, v ≠ Json.obj m) :
    configure_everything access_token project_ref project_url anon_key service_key
        db_password region (some (Json.obj entries)) =
      [Event.fileWrite ".env"
          (FileData.text (env_content project_url anon_key service_key project_ref
            region db_password)),
       Event.fileWrite settingsBackupPath (FileData.jsonDoc (Json.obj entries)),
       Event.raise "TypeError"] := by
  have hc : dictContains entries "mcpServers" = true := by
    unfold dictContains; rw [hv]; rfl
  have hmerge : mergeMcpSettings entries (supabaseServerEntry project_ref access_token) =
      Except.error "TypeError" := by
    unfold mergeMcpSettings
    simp only [hc, if_true, hv]
    cases v with
    | obj m => exact absurd rfl (hno m)
    | null => rfl
    | bool b => rfl
    | num n => rfl
    | str s => rfl
    | arr elems => rfl
  unfold configure_everything mcp_settings_events
  simp only [hmerge]

/-- Witness for C9: a document mapping `mcpServers` to a string. -/
theorem C9_non_object_mcpServers_witness :
    configure_everything "tok" "refx" "https://refx.supabase.co" "" "" "pw12345678901"
        "us-east-1" (some (Json.obj [("mcpServers", Json.str "bad")])) =
      [Event.fileWrite ".env"
          (FileData.text (env_content "https://refx.supabase.co" "" "" "refx"
            "us-east-1" "pw12345678901")),
       Event.fileWrite settingsBackupPath
          (FileData.jsonDoc (Json.obj [("mcpServers", Json.str "bad")])),
       Event.raise "TypeError"] := by
  exact C9_non_object_mcpServers "tok" "refx" "https://refx.supabase.co" "" ""
    "pw12345678901" "us-east-1" [("mcpServers", Json.str "bad")] (Json.str "bad")
    rfl (fun m h => by cases h)

/-! ### C4 -/

/-- C4: with an empty or unset effective token, both scripts exit with
status 1, and their traces contain no network request and no file write. -/
theorem C4_empty_token_exits (envToken : Option String) (promptToken : String)
    (inp : SetupInputs) (pEnvToken : Option String) (pinp : PolarityInputs)
    (h1 : effective_token envToken promptToken = "")
    (h2 : pEnvToken.getD "" = "") :
    setup_main envToken promptToken inp = [Event.exitCode 1] ∧
    create_polarity pEnvToken pinp = [Event.exitCode 1] ∧
    (setup_main envToken promptToken inp).filter (fun e => isNetwork e || isFileWrite e) = [] ∧
    (create_polarity pEnvToken pinp).filter (fun e => isNetwork e || isFileWrite e) = [] := by
  have hs : setup_main envToken promptToken inp = [Event.exitCode 1] := by
    unfold setup_main
    simp [h1]
  have hp : create_polarity pEnvToken pinp = [Event.exitCode 1] := by
    unfold create_polarity
    simp [h2]
  refine ⟨hs, hp, ?_, ?_⟩
  · rw [hs]; rfl
  · rw [hp]; rfl

def C4w_inp : SetupInputs :=
  ⟨some [], 1, some [], "", 1, none, "", "", "", [], none, fun _ => none, none⟩

def C4w_pinp : PolarityInputs :=
  ⟨some [], 200, ⟨"", "", "", none⟩, fun _ => none, none, "ts"⟩

/-- Witness for C4: an empty environment token with a blank interactive
entry (setup_supabase.py), and an unset variable (create_polarity.py). -/
theorem C4_empty_token_exits_witness :
    setup_main (some "") "   " C4w_inp = [Event.exitCode 1] ∧
    create_polarity none C4w_pinp = [Event.exitCode 1] := by
  have h := C4_empty_token_exits (some "") "   " C4w_inp none C4w_pinp rfl rfl
  exact ⟨h.1, h.2.1⟩

/-! ### C5 -/

/-- C5: when the organization listing returns an empty collection, both
scripts abort before any project-related API call: `setup_supabase.py`
returns after the single organization request, and `create_polarity.py`
dies on the `orgs[0]` subscript; neither trace contains a project
listing, a project creation, or a key fetch. -/
theorem C5_empty_orgs_aborts (tok : String) (inp : SetupInputs)
    (pEnv : String) (pinp : PolarityInputs)
    (h1 : inp.orgsResp = some []) (h2 : pinp.orgsResp = some [])
    (h3 : ¬pEnv = "") :
    setup_supabase tok inp = [Event.httpGet organizationsUrl] ∧
    create_polarity (some pEnv) pinp =
      [Event.httpGet organizationsUrl, Event.raise "IndexError"] ∧
    (setup_supabase tok inp).filter isProjectApiCall = [] ∧
    (create_polarity (some pEnv) pinp).filter isProjectApiCall = [] := by
  have hs : setup_supabase tok inp = [Event.httpGet organizationsUrl] := by
    unfold setup_supabase
    simp [h1, setup_afterOrgs]
  have hp : create_polarity (some pEnv) pinp =
      [Event.httpGet organizationsUrl, Event.raise "IndexError"] := by
    unfold create_polarity
    simp [h2, h3, polarity_afterOrgs, polarity_withOrg]
  refine ⟨hs, hp, ?_, ?_⟩
  · rw [hs]; rfl
  · rw [hp]; rfl

def C5w_inp : SetupInputs :=
  ⟨some [], 1, some [], "", 1, none, "", "", "", [], none, fun _ => none, none⟩

def C5w_pinp : PolarityInputs :=
  ⟨some [], 200, ⟨"", "", "", none⟩, fun _ => none, none, "ts"⟩

/-- Witness for C5 at concrete inputs. -/
theorem C5_empty_orgs_aborts_witness :
    setup_supabase "tok" C5w_inp = [Event.httpGet organizationsUrl] ∧
    create_polarity (some "tok") C5w_pinp =
      [Event.httpGet organizationsUrl, Event.raise "IndexError"] := by
  have h := C5_empty_orgs_aborts "tok" C5w_inp "tok" C5w_pinp rfl rfl (by decide)
  exact ⟨h.1, h.2.1⟩

/-! ### Shared no-POST helper lemmas -/

theorem mcp_settings_no_network (tok ref : String) (prior : Option Json) :
    ∀ e ∈ mcp_settings_events tok ref prior, isNetwork e = false := by
  unfold mcp_settings_events
  cases prior with
  | none =>
    simp only []
    cases hm : mergeMcpSettings [] (supabaseServerEntry ref tok) with
    | ok merged => simp [isNetwork]
    | error msg => simp [isNetwork]
  | some doc =>
    simp only []
    cases doc with
    | obj entries =>
      cases hm : mergeMcpSettings entries (supabaseServerEntry ref tok) with
      | ok merged => simp [hm, isNetwork]
      | error msg => simp [hm, isNetwork]
    | null => simp [isNetwork]
    | bool b => simp [isNetwork]
    | num n => simp [isNetwork]
    | str s => simp [isNetwork]
    | arr elems => simp [isNetwork]

theorem configure_no_post (u tok ref url anon service pw region : String)
    (prior : Option Json) :
    Event.httpPost u ∉ configure_everything tok ref url anon service pw region prior := by
  intro hmem
  unfold configure_everything at hmem
  rcases List.mem_cons.mp hmem with h | h
  · exact Event.noConfusion h
  · have := mcp_settings_no_network tok ref prior _ h
    simp [isNetwork] at this

theorem pollApiKeys_no_post (u : String) (oracle : Nat → Option (List KeyEntry))
    (url : String) :
    ∀ fuel attempt acc, Event.httpPost u ∉ (pollApiKeys oracle url attempt fuel acc).2 := by
  intro fuel
  induction fuel with
  | zero => intro attempt acc; simp [pollApiKeys]
  | succ n ih =>
    intro attempt acc
    unfold pollApiKeys
    simp only []
    cases ho : oracle attempt with
    | none =>
      simp only [List.mem_append, List.mem_cons]
      intro hmem
      rcases hmem with (h | h | h) | h
      · exact Event.noConfusion h
      · exact Event.noConfusion h
      · simp at h
      · exact ih (attempt + 1) acc h
    | some keys =>
      simp only []
      by_cases hif : findApiKey keys "anon" ≠ "" ∧ findApiKey keys "service_role" ≠ ""
      · rw [if_pos hif]
        simp
      · rw [if_neg hif]
        simp only [List.mem_append, List.mem_cons]
        intro hmem
        rcases hmem with (h | h | h) | h
        · exact Event.noConfusion h
        · exact Event.noConfusion h
        · simp at h
        · exact ih (attempt + 1) (findApiKey keys "anon", findApiKey keys "service_role") h

theorem password_loop_length :
    ∀ (attempts : List (String × String)) (pw : String),
      password_loop attempts = some pw → 12 ≤ pw.length := by
  intro attempts
  induction attempts with
  | nil => intro pw h; simp [password_loop] at h
  | cons pc rest ih =>
    intro pw h
    obtain ⟨p, c⟩ := pc
    unfold password_loop at h
    simp only [] at h
    by_cases h12 : 12 ≤ (pyStrip p).length
    · rw [if_pos h12] at h
      by_cases heq : pyStrip p = pyStrip c
      · rw [if_pos heq] at h
        injection h with h1
        rw [← h1]
        exact h12
      · rw [if_neg heq] at h
        exact ih pw h
    · rw [if_neg h12] at h
      exact ih pw h

/-- If the project-creation POST occurs in a `setup_supabase` trace, the
run reached the creation branch: the region lookup succeeded and the
password loop accepted an entry. -/
theorem post_mem_setup (tok : String) (inp : SetupInputs)
    (h : Event.httpPost projectsUrl ∈ setup_supabase tok inp) :
    ∃ region pw, region_of_choice inp.regionChoice = Except.ok region ∧
      password_loop inp.passwordAttempts = some pw := by
  unfold setup_supabase at h
  rw [List.mem_cons] at h
  rcases h with hclash | h
  · exact Event.noConfusion hclash
  cases horgs : inp.orgsResp with
  | none => rw [horgs] at h; simp [setup_afterOrgs] at h
  | some orgs =>
    rw [horgs] at h
    simp only [setup_afterOrgs] at h
    by_cases hemp : orgs.isEmpty = true
    · rw [if_pos hemp] at h
      simp at h
    · rw [if_neg hemp] at h
      cases hsel : (if orgs.length == 1 then orgs.get? 0 else orgs.get? (inp.orgChoice - 1)) with
      | none => rw [hsel] at h; simp [setup_selectedOrg] at h
      | some o =>
        rw [hsel] at h
        simp only [setup_selectedOrg, List.mem_cons] at h
        rcases h with hclash | h
        · exact Event.noConfusion hclash
        simp only [setup_branch] at h
        by_cases hex :
            (!(inp.projectsResp.getD []).isEmpty &&
              (pyStrip (pyLower inp.useExisting) == "y")) = true
        · rw [if_pos hex] at h
          cases hch : (inp.projectsResp.getD []).get? (inp.existingChoice - 1) with
          | none => rw [hch] at h; simp at h
          | some project =>
            rw [hch] at h
            simp only [setup_existing, List.mem_cons] at h
            rcases h with hclash | h
            · exact Event.noConfusion hclash
            · exact absurd h (configure_no_post _ _ _ _ _ _ _ _ _)
        · rw [if_neg hex] at h
          simp only [setup_create] at h
          cases hreg : region_of_choice inp.regionChoice with
          | error msg => rw [hreg] at h; simp [setup_withRegion] at h
          | ok region =>
            rw [hreg] at h
            simp only [setup_withRegion] at h
            cases hpw : password_loop inp.passwordAttempts with
            | none => rw [hpw] at h; simp [setup_withPassword] at h
            | some pw => exact ⟨region, pw, rfl, rfl⟩

/-! ### C8 -/

/-- C8: the password loop accepts an entry exactly when its stripped form
has length at least 12 and the stripped confirmation equals it; every
accepted password has length at least 12; and the project-creation POST
is reached only with an accepted password. -/
theorem C8_password_policy :
    (∀ p c rest, password_loop ((p, c) :: rest) =
        if 12 ≤ (pyStrip p).length ∧ pyStrip p = pyStrip c then some (pyStrip p)
        else password_loop rest) ∧
    (∀ attempts pw, password_loop attempts = some pw → 12 ≤ pw.length) ∧
    (∀ tok inp, Event.httpPost projectsUrl ∈ setup_supabase tok inp →
        ∃ pw, password_loop inp.passwordAttempts = some pw ∧ 12 ≤ pw.length) := by
  refine ⟨?_, password_loop_length, ?_⟩
  · intro p c rest
    rw [password_loop]
    by_cases h12 : 12 ≤ (pyStrip p).length
    · by_cases heq : pyStrip p = pyStrip c
      · rw [if_pos h12, if_pos heq, if_pos ⟨h12, heq⟩]
      · rw [if_pos h12, if_neg heq, if_neg (fun hh => heq hh.2)]
    · rw [if_neg h12, if_neg (fun hh => h12 hh.1)]
  · intro tok inp hmem
    obtain ⟨region, pw, _hreg, hpw⟩ := post_mem_setup tok inp hmem
    exact ⟨pw, hpw, password_loop_length inp.passwordAttempts pw hpw⟩

def C8w_inp : SetupInputs :=
  ⟨some [⟨"o1", "Org"⟩], 1, some [], "", 1, none, "", "Finance Platform", "6",
   [("short", "short"), ("abcdefghij12", "abcdefghij12")],
   some ⟨"id1", "refx", "Finance Platform", none⟩, fun _ => none, none⟩

/-- Witness for C8: the loop rejects a short entry, accepts a 12-character
one, and the creation POST appears in a run using those entries. -/
theorem C8_password_policy_witness :
    password_loop [("short", "short"), ("abcdefghij12", "abcdefghij12")] =
      some "abcdefghij12" ∧
    (12 ≤ ("abcdefghij12" : String).length) ∧
    (Event.httpPost projectsUrl ∈ setup_supabase "tok" C8w_inp →
      ∃ pw, password_loop C8w_inp.passwordAttempts = some pw ∧ 12 ≤ pw.length) := by
  refine ⟨?_, ?_, C8_password_policy.2.2 "tok" C8w_inp⟩
  · rw [C8_password_policy.1, if_neg (by decide), C8_password_policy.1, if_pos (by decide)]
    rfl
  · exact (C8_password_policy.2.1 [("abcdefghij12", "abcdefghij12")] "abcdefghij12"
      (by rw [C8_password_policy.1, if_pos (by decide)]; rfl))

/-! ### C10 -/

/-- C10: a non-empty region selection whose stripped form is not one of
the six menu keys makes the dict subscript raise `KeyError`, and the run
aborts before any creation POST (when the run has reached the creation
branch, its trace ends at the `KeyError`); an empty selection defaults to
`us-east-1`. -/
theorem C10_region_menu :
    (∀ choice : String, pyStrip choice ≠ "" →
        pyStrip choice ∉ ["1", "2", "3", "4", "5", "6"] →
        region_of_choice choice = Except.error "KeyError") ∧
    (region_of_choice "" = Except.ok "us-east-1") ∧
    (∀ tok inp msg, region_of_choice inp.regionChoice = Except.error msg →
        Event.httpPost projectsUrl ∉ setup_supabase tok inp) ∧
    (∀ tok inp orgs o, inp.orgsResp = some orgs → orgs.isEmpty = false →
        (if orgs.length == 1 then orgs.get? 0 else orgs.get? (inp.orgChoice - 1)) = some o →
        (!(inp.projectsResp.getD []).isEmpty &&
          (pyStrip (pyLower inp.useExisting) == "y")) = false →
        region_of_choice inp.regionChoice = Except.error "KeyError" →
        setup_supabase tok inp =
          [Event.httpGet organizationsUrl, Event.httpGet projectsUrl,
           Event.raise "KeyError"]) := by
  refine ⟨?_, rfl, ?_, ?_⟩
  · intro choice hne hnot
    unfold region_of_choice
    rw [if_neg hne]
    have hfind : regions.find? (fun r => r.1 == pyStrip choice) = none := by
      rw [List.find?_eq_none]
      intro r hr
      simp only [regions, List.mem_cons, List.not_mem_nil, or_false] at hr
      rcases hr with h | h | h | h | h | h <;> subst h <;>
        intro hh <;> exact hnot (by rw [← eq_of_beq hh]; decide)
    rw [hfind]
    rfl
  · intro tok inp msg hreg hmem
    obtain ⟨region, pw, hok, _⟩ := post_mem_setup tok inp hmem
    rw [hreg] at hok
    exact Except.noConfusion hok
  · intro tok inp orgs o horgs hemp hsel hex hreg
    unfold setup_supabase
    rw [horgs]
    simp only [setup_afterOrgs, hemp, Bool.false_eq_true, if_false, hsel,
      setup_selectedOrg, setup_branch, hex, setup_create, hreg, setup_withRegion]

def C10w_inp : SetupInputs :=
  ⟨some [⟨"o1", "Org"⟩], 1, some [], "", 1, none, "", "Finance Platform", "9",
   [], none, fun _ => none, none⟩

/-- Witness for C10: the selection `"9"`. -/
theorem C10_region_menu_witness :
    region_of_choice "9" = Except.error "KeyError" ∧
    region_of_choice "" = Except.ok "us-east-1" ∧
    Event.httpPost projectsUrl ∉ setup_supabase "tok" C10w_inp ∧
    setup_supabase "tok" C10w_inp =
      [Event.httpGet organizationsUrl, Event.httpGet projectsUrl,
       Event.raise "KeyError"] := by
  refine ⟨C10_region_menu.1 "9" (by decide) (by decide), C10_region_menu.2.1,
    C10_region_menu.2.2.1 "tok" C10w_inp "KeyError" rfl,
    C10_region_menu.2.2.2 "tok" C10w_inp [⟨"o1", "Org"⟩] ⟨"o1", "Org"⟩ rfl rfl rfl rfl rfl⟩

/-! ### C6 -/

/-- The events of one polling attempt: a 3-second sleep, then the key
request. -/
def pollBlock (url : String) : List Event := [Event.sleep 3, Event.httpGet url]

/-- `k` consecutive polling attempts. -/
def pollBlocks (url : String) : Nat → List Event
  | 0 => []
  | k + 1 => pollBlock url ++ pollBlocks url k

/-- The loop's break condition on one response: a 200-status body in
which both the `anon` and the `service_role` key values are non-empty. -/
def keysFound : Option (List KeyEntry) → Bool
  | some keys => (findApiKey keys "anon" != "") && (findApiKey keys "service_role" != "")
  | none => false

theorem pollApiKeys_attempts (oracle : Nat → Option (List KeyEntry)) (url : String) :
    ∀ fuel attempt acc, ∃ k, k ≤ fuel ∧
      (pollApiKeys oracle url attempt fuel acc).2 = pollBlocks url k ∧
      (∀ i, i + 1 < k → keysFound (oracle (attempt + i)) = false) ∧
      (k < fuel → 0 < k ∧ keysFound (oracle (attempt + (k - 1))) = true) := by
  intro fuel
  induction fuel with
  | zero =>
    intro attempt acc
    exact ⟨0, Nat.le_refl 0, rfl, fun i hi => absurd hi (by omega),
      fun hk => absurd hk (by omega)⟩
  | succ n ih =>
    intro attempt acc
    unfold pollApiKeys
    simp only []
    cases ho : oracle attempt with
    | some keys =>
      simp only []
      by_cases hif : findApiKey keys "anon" ≠ "" ∧ findApiKey keys "service_role" ≠ ""
      · rw [if_pos hif]
        refine ⟨1, by omega, ?_, fun i hi => absurd hi (by omega), fun _ => ⟨Nat.one_pos, ?_⟩⟩
        · simp [pollBlocks, pollBlock]
        · simp [keysFound, ho, hif.1, hif.2]
      · rw [if_neg hif]
        obtain ⟨k, hk, htr, hnf, hlast⟩ :=
          ih (attempt + 1) (findApiKey keys "anon", findApiKey keys "service_role")
        refine ⟨k + 1, by omega, ?_, ?_, ?_⟩
        · simp [pollBlocks, pollBlock, htr]
        · intro i hi
          cases i with
          | zero =>
            have hor : findApiKey keys "anon" = "" ∨ findApiKey keys "service_role" = "" := by
              by_contra hcon
              push_neg at hcon
              exact hif hcon
            rcases hor with h | h <;> simp [keysFound, ho, h]
          | succ j =>
            have hj := hnf j (by omega)
            rw [show attempt + (j + 1) = attempt + 1 + j from by omega]
            exact hj
        · intro hlt
          obtain ⟨hpos, hfound⟩ := hlast (by omega)
          refine ⟨by omega, ?_⟩
          rw [show attempt + (k + 1 - 1) = attempt + 1 + (k - 1) from by omega]
          exact hfound
    | none =>
      simp only []
      obtain ⟨k, hk, htr, hnf, hlast⟩ := ih (attempt + 1) acc
      refine ⟨k + 1, by omega, ?_, ?_, ?_⟩
      · simp [pollBlocks, pollBlock, htr]
      · intro i hi
        cases i with
        | zero => simp [keysFound, ho]
        | succ j =>
          have hj := hnf j (by omega)
          rw [show attempt + (j + 1) = attempt + 1 + j from by omega]
          exact hj
      · intro hlt
        obtain ⟨hpos, hfound⟩ := hlast (by omega)
        refine ⟨by omega, ?_⟩
        rw [show attempt + (k + 1 - 1) = attempt + 1 + (k - 1) from by omega]
        exact hfound

/-- C6: the key-retrieval loop (run with fuel 5 by `setup_supabase.py`
and fuel 10 by `create_polarity.py`, always from attempt 0 and an empty
accumulator) performs some number `k` of attempts bounded by its fuel,
each attempt consisting of a 3-second sleep followed by one key request;
no attempt before the last one satisfied the break condition, and a run
shorter than the fuel ends precisely because its last attempt found both
the `anon` and `service_role` keys non-empty. -/
theorem C6_bounded_polling (oracle : Nat → Option (List KeyEntry)) (url : String)
    (acc : String × String) :
    (∃ k, k ≤ 5 ∧ (pollApiKeys oracle url 0 5 acc).2 = pollBlocks url k ∧
        (∀ i, i + 1 < k → keysFound (oracle i) = false) ∧
        (k < 5 → 0 < k ∧ keysFound (oracle (k - 1)) = true)) ∧
    (∃ k, k ≤ 10 ∧ (pollApiKeys oracle url 0 10 acc).2 = pollBlocks url k ∧
        (∀ i, i + 1 < k → keysFound (oracle i) = false) ∧
        (k < 10 → 0 < k ∧ keysFound (oracle (k - 1)) = true)) := by
  constructor
  · obtain ⟨k, h1, h2, h3, h4⟩ := pollApiKeys_attempts oracle url 5 0 acc
    exact ⟨k, h1, h2, fun i hi => by simpa using h3 i hi, fun hk => by simpa using h4 hk⟩
  · obtain ⟨k, h1, h2, h3, h4⟩ := pollApiKeys_attempts oracle url 10 0 acc
    exact ⟨k, h1, h2, fun i hi => by simpa using h3 i hi, fun hk => by simpa using h4 hk⟩

/-! ### C3 -/

/-- With both key values empty, the rendered `setup_supabase.py` `.env`
text contains the two key lines rendered empty (as the exact text
fragment `"\nSUPABASE_KEY=\nSUPABASE_SERVICE_ROLE_KEY=\n"`). -/
theorem env_content_empty_keys (url ref region pw : String) :
    ∃ s t, env_content url "" "" ref region pw =
      s ++ "\nSUPABASE_KEY=\nSUPABASE_SERVICE_ROLE_KEY=\n" ++ t := by
  refine ⟨"# Supabase Configuration\n# Auto-generated by setup_supabase.py\n\n# ============================================\n# SUPABASE - Python Client\n# ============================================\nSUPABASE_URL=" ++ url,
    "\n# ============================================\n# SUPABASE - MCP Server Reference\n# ============================================\n# These are configured in ~/.claude/settings.json\n# SUPABASE_ACCESS_TOKEN=(your access token)\n# SUPABASE_PROJECT_REF=" ++ ref ++
    "\n# SUPABASE_REGION=" ++ region ++
    "\n\n# Project database password (keep secure!)\nSUPABASE_DB_PASSWORD=" ++ pw ++
    "\n\n# ============================================\n# PROJECT SETTINGS\n# ============================================\nDEBUG=true\nLOG_LEVEL=info\n\n# ============================================\n# FINANCIAL DATA SOURCES\n# ============================================\n# ALPHA_VANTAGE_API_KEY=\n# FINNHUB_API_KEY=\n", ?_⟩
  unfold env_content
  simp only [String.append_empty, String.append_assoc]
  congr 1

/-- With both key values empty, the rendered `create_polarity.py` `.env`
text likewise contains the two key lines rendered empty. -/
theorem polarity_env_content_empty_keys (ts url ref : String) :
    ∃ s t, polarity_env_content ts url "" "" ref =
      s ++ "\nSUPABASE_KEY=\nSUPABASE_SERVICE_ROLE_KEY=\n" ++ t := by
  refine ⟨"# Supabase Project: Polarity\n# Region: Tokyo (ap-northeast-1) - Optimized for South Korea\n# Created: " ++ ts ++
    "\n\n# ============================================\n# SUPABASE CREDENTIALS\n# ============================================\nSUPABASE_URL=" ++ url,
    "\n# ============================================\n# PROJECT DETAILS\n# ============================================\nSUPABASE_PROJECT_REF=" ++ ref ++
    "\nSUPABASE_REGION=" ++ POLARITY_REGION ++
    "\nSUPABASE_DB_PASSWORD=" ++ POLARITY_DB_PASSWORD ++
    "\n\n# ⚠️  SECURITY WARNING:\n# - Never commit this file to git (.env is in .gitignore)\n# - SERVICE_ROLE_KEY bypasses all Row Level Security\n# - Keep database password secure\n\n# ============================================\n# APPLICATION SETTINGS\n# ============================================\nDEBUG=true\nLOG_LEVEL=info\n\n# ============================================\n# FINANCIAL DATA API KEYS\n# ============================================\n# Alpha Vantage: https://www.alphavantage.co/support/#api-key\n# ALPHA_VANTAGE_API_KEY=\n\n# Finnhub: https://finnhub.io/dashboard\n# FINNHUB_API_KEY=\n\n# ============================================\n", ?_⟩
  unfold polarity_env_content
  simp only [String.append_empty, String.append_assoc]
  congr 1

/-- C3 (amended): in every run that reaches key polling and exhausts it
without both keys found, the `.env` file is still written (the run does
not abort); its key fields carry the final polled values, and when
nothing was retrieved at all both `SUPABASE_KEY` and
`SUPABASE_SERVICE_ROLE_KEY` are rendered as empty values.  Both scripts
are covered. -/
theorem C3_env_still_written (tok : String) (inp : SetupInputs)
    (orgs : List Org) (o : Org) (region pw : String) (project : ProjectInfo)
    (r : (String × String) × List Event)
    (pTok : String) (pinp : PolarityInputs) (porgs : List Org) (po : Org)
    (pr : (String × String) × List Event)
    (horgs : inp.orgsResp = some orgs) (hemp : orgs.isEmpty = false)
    (hsel : (if orgs.length == 1 then orgs.get? 0 else orgs.get? (inp.orgChoice - 1)) = some o)
    (hex : (!(inp.projectsResp.getD []).isEmpty &&
        (pyStrip (pyLower inp.useExisting) == "y")) = false)
    (hreg : region_of_choice inp.regionChoice = Except.ok region)
    (hpw : password_loop inp.passwordAttempts = some pw)
    (hcr : inp.createResp = some project)
    (hr : pollApiKeys inp.keyOracle (apiKeysUrl project.ref) 0 5 ("", "") = r)
    (hnb : ¬(r.1.1 ≠ "" ∧ r.1.2 ≠ ""))
    (hpTok : ¬pTok = "")
    (hporgs : pinp.orgsResp = some porgs)
    (hpo : porgs.get? 0 = some po)
    (hst : ¬(pinp.createStatus ≠ 200 ∧ pinp.createStatus ≠ 201))
    (hpr : pollApiKeys pinp.keyOracle (apiKeysUrl pinp.createResp.ref) 0 10 ("", "") = pr)
    (hpnb : ¬(pr.1.1 ≠ "" ∧ pr.1.2 ≠ "")) :
    (Event.fileWrite ".env"
        (FileData.text (env_content ("https://" ++ project.ref ++ ".supabase.co")
          r.1.1 r.1.2 project.ref region pw)) ∈ setup_supabase tok inp) ∧
    (r.1 = ("", "") →
      ∃ s t, env_content ("https://" ++ project.ref ++ ".supabase.co")
          r.1.1 r.1.2 project.ref region pw =
        s ++ "\nSUPABASE_KEY=\nSUPABASE_SERVICE_ROLE_KEY=\n" ++ t) ∧
    (Event.fileWrite ".env"
        (FileData.text (polarity_env_content pinp.timestamp
          ("https://" ++ pinp.createResp.ref ++ ".supabase.co")
          pr.1.1 pr.1.2 pinp.createResp.ref)) ∈ create_polarity (some pTok) pinp) ∧
    (pr.1 = ("", "") →
      ∃ s t, polarity_env_content pinp.timestamp
          ("https://" ++ pinp.createResp.ref ++ ".supabase.co")
          pr.1.1 pr.1.2 pinp.createResp.ref =
        s ++ "\nSUPABASE_KEY=\nSUPABASE_SERVICE_ROLE_KEY=\n" ++ t) := by
  refine ⟨?_, ?_, ?_, ?_⟩
  · unfold setup_supabase
    rw [horgs]
    simp only [setup_afterOrgs, hemp, Bool.false_eq_true, if_false, hsel,
      setup_selectedOrg, setup_branch, hex, setup_create, hreg, setup_withRegion,
      hpw, setup_withPassword, hcr, setup_afterCreate, hr, configure_everything]
    exact List.mem_cons_of_mem _ (List.mem_cons_of_mem _ (List.mem_cons_of_mem _
      (List.mem_append_right _ (List.mem_cons_self _ _))))
  · intro h00
    have h1 : r.1.1 = "" := by rw [h00]
    have h2 : r.1.2 = "" := by rw [h00]
    rw [h1, h2]
    exact env_content_empty_keys _ _ _ _
  · unfold create_polarity
    simp only [Option.getD_some, hpTok, if_false, hporgs, polarity_afterOrgs,
      hpo, polarity_withOrg, hst, polarity_provision, hpr]
    exact List.mem_cons_of_mem _ (List.mem_cons_of_mem _
      (List.mem_append_right _ (List.mem_cons_self _ _)))
  · intro h00
    have h1 : pr.1.1 = "" := by rw [h00]
    have h2 : pr.1.2 = "" := by rw [h00]
    rw [h1, h2]
    exact polarity_env_content_empty_keys _ _ _

/-! counterexample inputs for C3 as stated -/

/-- Every polling attempt returns a body holding only the `anon` key. -/
def C3x_oracle : Nat → Option (List KeyEntry) := fun _ => some [⟨"anon", "A"⟩]

def C3x_inp : SetupInputs :=
  ⟨some [⟨"o1", "Org"⟩], 1, some [], "", 1, none, "", "Finance Platform", "6",
   [("abcdefghij12", "abcdefghij12")], some ⟨"id1", "refx", "Finance Platform", none⟩,
   C3x_oracle, none⟩

def C3x_env : String :=
  env_content "https://refx.supabase.co" "A" "" "refx" "ap-northeast-1" "abcdefghij12"

/-- Counterexample to C3 as stated: a run whose polling exhausts all five
attempts without both keys found (the service key stays empty) still
renders `SUPABASE_KEY=A` — a non-empty value — so the written `.env` has
no empty `SUPABASE_KEY=` line. -/
theorem C3_counterexample :
    (pollApiKeys C3x_oracle (apiKeysUrl "refx") 0 5 ("", "")).1 = ("A", "") ∧
    (pollApiKeys C3x_oracle (apiKeysUrl "refx") 0 5 ("", "")).2 =
      pollBlocks (apiKeysUrl "refx") 5 ∧
    Event.fileWrite ".env" (FileData.text C3x_env) ∈ setup_supabase "tok" C3x_inp ∧
    "SUPABASE_KEY=A" ∈ strLines C3x_env ∧
    "SUPABASE_KEY=" ∉ strLines C3x_env := by
  refine ⟨rfl, rfl, ?_, by decide, by decide⟩
  have h : setup_supabase "tok" C3x_inp =
      [Event.httpGet organizationsUrl, Event.httpGet projectsUrl,
       Event.httpPost projectsUrl] ++
      (pollApiKeys C3x_oracle (apiKeysUrl "refx") 0 5 ("", "")).2 ++
      Event.fileWrite ".env" (FileData.text C3x_env) ::
        mcp_settings_events "tok" "refx" none := rfl
  rw [h]
  exact List.mem_append_right _ (List.mem_cons_self _ _)

def C3w_inp : SetupInputs :=
  ⟨some [⟨"o1", "Org"⟩], 1, some [], "", 1, none, "", "Finance Platform", "6",
   [("abcdefghij12", "abcdefghij12")], some ⟨"id1", "refx", "Finance Platform", none⟩,
   fun _ => none, none⟩

def C3w_pinp : PolarityInputs :=
  ⟨some [⟨"o1", "Org"⟩], 200, ⟨"id1", "prefx", "polarity", none⟩, fun _ => none, none, "ts"⟩

/-- Witness for the amended C3: oracles that never answer exhaust both
loops with both keys empty, and the `.env` write still appears with both
key lines rendered empty. -/
theorem C3_env_still_written_witness :
    (Event.fileWrite ".env"
        (FileData.text (env_content "https://refx.supabase.co" "" "" "refx"
          "ap-northeast-1" "abcdefghij12")) ∈ setup_supabase "tok" C3w_inp) ∧
    (∃ s t, env_content "https://refx.supabase.co" "" "" "refx"
          "ap-northeast-1" "abcdefghij12" =
        s ++ "\nSUPABASE_KEY=\nSUPABASE_SERVICE_ROLE_KEY=\n" ++ t) ∧
    (Event.fileWrite ".env"
        (FileData.text (polarity_env_content "ts" "https://prefx.supabase.co" "" ""
          "prefx")) ∈ create_polarity (some "tok") C3w_pinp) ∧
    (∃ s t, polarity_env_content "ts" "https://prefx.supabase.co" "" "" "prefx" =
        s ++ "\nSUPABASE_KEY=\nSUPABASE_SERVICE_ROLE_KEY=\n" ++ t) := by
  have h := C3_env_still_written "tok" C3w_inp [⟨"o1", "Org"⟩] ⟨"o1", "Org"⟩
    "ap-northeast-1" "abcdefghij12" ⟨"id1", "refx", "Finance Platform", none⟩
    (("", ""), pollBlocks (apiKeysUrl "refx") 5)
    "tok" C3w_pinp [⟨"o1", "Org"⟩] ⟨"o1", "Org"⟩
    (("", ""), pollBlocks (apiKeysUrl "prefx") 10)
    rfl rfl rfl rfl rfl rfl rfl (by rfl) (by simp) (by decide) rfl rfl
    (by decide) (by rfl) (by simp)
  exact ⟨h.1, h.2.1 rfl, h.2.2.1, h.2.2.2 rfl⟩

/-! ### C7 -/

def C7w_inp : SetupInputs :=
  ⟨some [⟨"o1", "Org"⟩], 1, some [], "", 1, none, "", "Finance Platform", "6",
   [("abcdefghij12", "abcdefghij12")], some ⟨"id1", "refx", "Finance Platform", none⟩,
   fun _ => none, none⟩

def C7w_env : String :=
  env_content "https://refx.supabase.co" "" "" "refx" "ap-northeast-1" "abcdefghij12"

/-- C7: with region choice `"6"` and password `"abcdefghij12"` (and fixed
token, single organization, project name, and a provisioned project
reference), the run writes a `.env` file whose `SUPABASE_REGION` line
carries `ap-northeast-1` and whose `SUPABASE_DB_PASSWORD` line carries
the literal password. -/
theorem C7_fixed_inputs :
    region_of_choice "6" = Except.ok "ap-northeast-1" ∧
    Event.fileWrite ".env" (FileData.text C7w_env) ∈ setup_supabase "tok" C7w_inp ∧
    "# SUPABASE_REGION=ap-northeast-1" ∈ strLines C7w_env ∧
    "SUPABASE_DB_PASSWORD=abcdefghij12" ∈ strLines C7w_env := by
  refine ⟨rfl, ?_, by decide, by decide⟩
  have h : setup_supabase "tok" C7w_inp =
      [Event.httpGet organizationsUrl, Event.httpGet projectsUrl,
       Event.httpPost projectsUrl] ++
      (pollApiKeys (fun _ => none) (apiKeysUrl "refx") 0 5 ("", "")).2 ++
      Event.fileWrite ".env" (FileData.text C7w_env) ::
        mcp_settings_events "tok" "refx" none := rfl
  rw [h]
  exact List.mem_append_right _ (List.mem_cons_self _ _)

end Finance
